import Mathlib

/-!
Shallow embedding of the happy-bot flow scheduling and delivery engine
(src/bot.py, src/db.py) together with proofs checking the natural-language
specification against it.

Conventions of the embedding:
* Python strings are `String`; `str.strip()` is `pyStrip`, `str.lower()` is
  `pyLower` (implemented on `List Char` so everything evaluates).
* Python `int(...)` / `float(...)` parsing is `pyInt` / `pyFloat`; a `none`
  result models the `ValueError` the call raises.
* SQLite cell values that matter (the `delay_seconds` column) are `SqlVal`.
* Side effects (Delivery Sink calls, `asyncio.sleep`, `upsert_job`, state
  writes) are reified as an `Ev` event list in program order.
* The outbound channel internals (URL resolution, retries inside
  `_safe_call`) are the external Delivery Sink collaborator: one sink call
  is one event.
-/

namespace HappyBot

/-- Characters considered whitespace by Python `str.strip()` (ASCII fragment). -/
def pySpace (c : Char) : Bool := c.isWhitespace

/-- `str.strip()` on the character list. -/
def pyStripChars (l : List Char) : List Char :=
  ((l.dropWhile pySpace).reverse.dropWhile pySpace).reverse

/-- Python `str.strip()`. -/
def pyStrip (s : String) : String := String.mk (pyStripChars s.data)

/-- ASCII `str.lower()` on one character. -/
def pyLowerChar (c : Char) : Char :=
  if 'A' ≤ c ∧ c ≤ 'Z' then Char.ofNat (c.toNat + 32) else c

/-- Python `str.lower()` (ASCII fragment; the mode strings are ASCII). -/
def pyLower (s : String) : String := String.mk (s.data.map pyLowerChar)

/-- Value of a nonempty all-digit character list. -/
def natOfDigits (l : List Char) : Nat :=
  l.foldl (fun a c => 10 * a + (c.toNat - 48)) 0

/-- All characters are decimal digits. -/
def allDigits (l : List Char) : Bool := l.all Char.isDigit

/-- Digits-only parse: nonempty and all digits. -/
def digitsToNat (l : List Char) : Option Nat :=
  if l = [] then none else if allDigits l then some (natOfDigits l) else none

/-- Python `int(s)` on the trimmed character list: optional sign, then digits;
`none` models the `ValueError`. -/
def pyIntChars (l : List Char) : Option Int :=
  match pyStripChars l with
  | '-' :: rest => (digitsToNat rest).map (fun n => -(n : Int))
  | '+' :: rest => (digitsToNat rest).map (fun n => (n : Int))
  | rest => (digitsToNat rest).map (fun n => (n : Int))

/-- Python `int(s)`. -/
def pyInt (s : String) : Option Int := pyIntChars s.data

/-- Split a character list at the first occurrence of `c`
(the semantics of Python `split(c, 1)` when a separator is present). -/
def splitOnceChar (c : Char) : List Char → Option (List Char × List Char)
  | [] => none
  | d :: ds =>
    if d = c then some ([], ds)
    else (splitOnceChar c ds).map (fun p => (d :: p.1, p.2))

/-- Fractional value of a digit list read after a decimal point. -/
def fracOfDigits (l : List Char) : ℚ :=
  l.foldr (fun c q => ((c.toNat - 48 : ℕ) + q) / 10) 0

/-- Python `float(s)` on a trimmed body: optional sign, digits with an optional
decimal point (the decimal fragment relevant to `delay_seconds`); `none`
models the `ValueError`. -/
def pyFloatBody (l : List Char) : Option ℚ :=
  match splitOnceChar '.' l with
  | none => (digitsToNat l).map (fun n => (n : ℚ))
  | some (ip, fp) =>
    if (ip ≠ [] ∨ fp ≠ []) ∧ allDigits ip ∧ allDigits fp then
      some ((natOfDigits ip : ℚ) + fracOfDigits fp)
    else none

/-- Python `float(s)`. -/
def pyFloat (s : String) : Option ℚ :=
  match pyStripChars s.data with
  | '-' :: rest => (pyFloatBody rest).map (fun q => -q)
  | '+' :: rest => pyFloatBody rest
  | rest => pyFloatBody rest

/-- Match a concrete key tag (such as `"flow:"`) against the front of a key;
`some rest` is the remainder after the tag — the semantics of
`job_key.startswith(tag)` followed by `job_key.split(":", 1)[1]`. -/
def stripKeyTag : List Char → List Char → Option (List Char)
  | [], rest => some rest
  | _ :: _, [] => none
  | p :: ps, c :: cs => if c = p then stripKeyTag ps cs else none

/-- A stored SQLite cell of the `content_blocks.delay_seconds` column:
absent (`NULL`), a numeric value, or text. -/
inductive SqlVal
  | null
  | real (q : ℚ)
  | text (s : String)
deriving DecidableEq

/-- Python truthiness of such a cell (`None`, `0`, `0.0` and `""` are falsy). -/
def pyTruthy : SqlVal → Bool
  | .null => false
  | .real q => q ≠ 0
  | .text s => s ≠ ""

/-- Python `float(...)` applied to a cell; `none` models the exception
(`TypeError` for `None`, `ValueError` for non-numeric text). -/
def pyFloatVal : SqlVal → Option ℚ
  | .null => none
  | .real q => some q
  | .text s => pyFloat s

/-- src/db.py `get_blocks` line `"delay": float(r[10] or 1.0)`: the delay a
loaded block carries, given the stored cell; `none` means `get_blocks`
raises and the enclosing `render_flow` logs and returns without rendering. -/
def get_blocks_delay (v : SqlVal) : Option ℚ :=
  pyFloatVal (if pyTruthy v then v else .real 1)

/-- The inter-block pause `render_flow` applies for a block whose stored
`delay_seconds` cell is `v`: src/bot.py computes
`delay = float(block.get("delay", 1.0) or 0)` and sleeps only when
`delay > 0`. `none` means the render aborted because `get_blocks` raised. -/
def render_pause_of_cell (v : SqlVal) : Option ℚ :=
  (get_blocks_delay v).map (fun d =>
    let d2 := if d = 0 then 0 else d
    if d2 > 0 then d2 else 0)

/-- A content block as consumed by src/bot.py (the dict it reads with
`block.get(...)`). The first fourteen fields are exactly the columns
src/db.py `get_blocks`/`get_block` return (`delay` already passed through
`float(r[10] or 1.0)`). The five `gate_*` fields are modelled from the spec
(§3 Content Block gate fields): the final database layer that stores and
returns them is not under src/ (src/db.py is an earlier revision), while
src/bot.py reads them via `block.get(...)`, which yields the empty default
when a store does not supply them. -/
structure Block where
  id : Int
  flow : String
  position : Int
  type : String
  title : String
  text : String
  circle : String
  video : String
  buttons : String
  is_active : Int
  delay : ℚ
  file_path : String
  file_kind : String
  file_name : String
  gate_next_flow : String
  gate_button_text : String
  gate_prompt_text : String
  gate_reminder_seconds : Int
  gate_reminder_text : String
deriving DecidableEq

/-- A post-flow action row as read by src/bot.py (`a.get(...)`). -/
structure Action where
  id : Int
  after_flow : String
  target_flow : String
  delay_seconds : Int
  is_active : Int
  action_type : String
deriving DecidableEq

/-- A flow trigger row as returned by src/db.py `get_flow_triggers`. -/
structure Trigger where
  flow : String
  trigger : String
  offset_seconds : Int
  is_active : Int
deriving DecidableEq

/-- A row of the `jobs` table (src/db.py): the column named `flow` holds the
job key string produced by the `_job_*` helpers of src/bot.py. -/
structure Job where
  id : Nat
  user_id : Int
  key : String
  run_at : Int
  done : Bool
deriving DecidableEq

/-- The `jobs` table plus its AUTOINCREMENT counter. -/
structure JobsTable where
  rows : List Job
  nextId : Nat
deriving DecidableEq

/-- Reified side effects, in program order. -/
inductive Ev
  | sendCircle (chat : Int) (path : String)
  | videoGate (chat : Int) (msg btn : String) (bid : Int)
  | sendMsg (chat : Int) (text : String) (kb : Option (List (String × String)))
  | sendMenuMsg (chat : Int) (text : String) (unlocked : Bool)
  | sendAttachment (chat : Int) (path kind name : String)
  | gatePrompt (chat : Int) (text btn : String) (bid : Int) (next : String)
  | sleep (secs : ℚ)
  | upsertJob (u : Int) (key : String) (runAt : Int)
  | unlockLessons (u : Int)
  | renderCall (u : Int) (flow : String) (sp : Int)
deriving DecidableEq

/-- Environment read by the engine: the flow-mode cache `_FLOW_MODES`, the
Flow Store, the Job-producing configuration and the clock. -/
structure Env where
  modes : List (String × String)
  blocksOf : String → List Block
  blockById : Int → Option Block
  actionsAll : List Action
  triggers : List Trigger
  pressed : List (Int × Int)
  users : List Int
  kbOf : String → Option (List (String × String))
  unlocked : Int → Bool
  now : Int
  courseFlow : String

/-- Association lookup returning `""` when absent (Python
`dict.get(k)` whose `None` is then collapsed by `or`). -/
def lookupStr : List (String × String) → String → String
  | [], _ => ""
  | (k, v) :: rest, f => if k = f then v else lookupStr rest f

/-- src/bot.py `_mode`: `(_FLOW_MODES.get((flow or "").strip()) or
"off").strip().lower()`. -/
def _mode (modes : List (String × String)) (flow : String) : String :=
  let v := lookupStr modes (pyStrip flow)
  pyLower (pyStrip (if v = "" then "off" else v))

/-- Modelled from the spec: `is_gate_pressed` reads the Gate-Pressed Record
store, which belongs to the final database layer absent from src/ (src/db.py
is an earlier revision without it). Per spec §3, a Gate-Pressed Record is a
per `(user_id, block_id)` marker. -/
def is_gate_pressed (env : Env) (u bid : Int) : Prop := (u, bid) ∈ env.pressed

instance (env : Env) (u bid : Int) : Decidable (is_gate_pressed env u bid) := by
  unfold is_gate_pressed; infer_instance

/-- Modelled from the spec: `get_flow_actions` (spec §6
`listPostFlowActions(after_flow | all)`) belongs to the final database layer
absent from src/; with `none` it lists every Post-flow Action row, with
`some f` the rows whose `after_flow` is `f`. -/
def get_flow_actions (env : Env) (after : Option String) : List Action :=
  match after with
  | none => env.actionsAll
  | some f => env.actionsAll.filter (fun a => a.after_flow == f)

/-- src/db.py `upsert_job`: `INSERT ... ON CONFLICT(user_id, flow) DO UPDATE
SET run_at_ts=excluded.run_at_ts, is_done=0`, after the leading
`flow.strip()` emptiness guard. -/
def jobMatches (u : Int) (k : String) (j : Job) : Bool :=
  j.user_id == u && j.key == k

def upsert_job (t : JobsTable) (u : Int) (kRaw : String) (runAt : Int) : JobsTable :=
  if pyStrip kRaw = "" then t
  else if t.rows.any (jobMatches u (pyStrip kRaw)) then
    { t with rows := t.rows.map (fun j =>
        if jobMatches u (pyStrip kRaw) j then { j with run_at := runAt, done := false } else j) }
  else
    { rows := t.rows ++ [⟨t.nextId, u, pyStrip kRaw, runAt, false⟩], nextId := t.nextId + 1 }

/-- src/db.py `mark_job_done`: `UPDATE jobs SET is_done=1 WHERE id=?`. -/
def mark_job_done (jid : Nat) (t : JobsTable) : JobsTable :=
  { t with rows := t.rows.map (fun j => if j.id = jid then { j with done := true } else j) }

/-- The durable stores touched by src/db.py `delete_flow`. -/
structure Store where
  content_blocks : List Block
  jobs : List Job
  flow_triggers : List Trigger
  flows : List (String × Int)
deriving DecidableEq

/-- src/db.py `delete_flow`: four `DELETE ... WHERE` statements. The `jobs`
delete matches the `flow` column — which under src/bot.py holds prefixed job
keys — against the bare flow name. -/
def delete_flow (st : Store) (name : String) : Store :=
  { content_blocks := st.content_blocks.filter (fun b => b.flow != name)
    jobs := st.jobs.filter (fun j => j.key != name)
    flow_triggers := st.flow_triggers.filter (fun t => t.flow != name)
    flows := st.flows.filter (fun f => f.1 != name) }

/-- src/bot.py `_job_flow`. -/
def _job_flow (flow : String) : String := "flow:" ++ pyStrip flow

/-- src/bot.py `_job_gate`. -/
def _job_gate (bid : Int) (next_flow : String) : String :=
  "gate:" ++ toString bid ++ ":" ++ pyStrip next_flow

/-- src/bot.py `_job_action`. -/
def _job_action (aid : Int) : String := "action:" ++ toString aid

/-- src/bot.py `_job_resume`. -/
def _job_resume (flow : String) (pos : Int) : String :=
  "resume:" ++ pyStrip flow ++ ":" ++ toString pos

/-- Skip test at the top of the `render_flow` per-block loop:
`if not block.get("is_active"): continue` and
`if start_position and pos < start_position: continue`. -/
def skipBlock (sp : Int) (b : Block) : Prop :=
  b.is_active = 0 ∨ (sp ≠ 0 ∧ b.position < sp)

instance (sp : Int) (b : Block) : Decidable (skipBlock sp b) := by
  unfold skipBlock; infer_instance

/-- Result of processing one non-skipped block: its events, whether the loop
returns early (`return` in the video and gate branches), and the updated
`menu_attached_once` flag. -/
structure ProcOut where
  evs : List Ev
  stop : Bool
  menuOnce : Bool
deriving DecidableEq

/-- src/bot.py `_send_video_gate`: nothing is sent when the block id is zero
or the video reference is blank; otherwise one prompt message with the watch
button. -/
def videoGateEvs (chat : Int) (b : Block) : List Ev :=
  if b.id = 0 ∨ pyStrip b.video = "" then []
  else
    let prompt := if pyStrip b.title ≠ "" then pyStrip b.title else "<b>Видео урок</b>"
    let descr := pyStrip b.text
    let msg := if descr ≠ "" then prompt ++ "\n\n" ++ descr else prompt
    let btn := if pyStrip b.gate_button_text ≠ "" then pyStrip b.gate_button_text else "▶️ Смотреть видео"
    [Ev.videoGate chat msg btn b.id]

/-- One iteration of the `render_flow` block loop (src/bot.py lines 578-695)
for a non-skipped block. -/
def procBlock (env : Env) (chat : Int) (flow : String) (m : Bool) (b : Block) : ProcOut :=
  let t := pyStrip b.type
  let delay := b.delay
  let kb := if pyStrip b.buttons = "" then none else env.kbOf (pyStrip b.buttons)
  let attachMenu : Prop :=
    flow = "welcome" ∧ m = false ∧ pyStrip b.text ≠ "" ∧ (t = "text" ∨ t = "" ∨ t = "buttons")
  if t = "video" then
    -- the video branch returns before the attachment and gate sections run
    { evs := videoGateEvs chat b, stop := true, menuOnce := m }
  else
    let primary : List Ev × Bool :=
      if t = "circle" ∧ b.circle ≠ "" then
        ([Ev.sendCircle chat b.circle], m)
      else if t = "buttons" then
        let title := pyStrip b.title
        let text := pyStrip b.text
        let msg := if title ≠ "" then title else if text ≠ "" then text else " "
        (match kb with
          | some k => [Ev.sendMsg chat msg (some k)]
          | none =>
            if b.buttons ≠ "" then [Ev.sendMsg chat "⚠️ buttons_json битый (невалидный JSON)." none]
            else [Ev.sendMsg chat msg none], m)
      else
        -- text / default
        let text := pyStrip b.text
        if text = "" then ([], m)
        else if attachMenu then
          ([Ev.sendMenuMsg chat text (env.unlocked chat)] ++
            (match kb with
              | some k => [Ev.sendMsg chat " " (some k)]
              | none => []), true)
        else ([Ev.sendMsg chat text kb], m)
    let aEvs :=
      if pyStrip b.file_path ≠ "" then
        [Ev.sendAttachment chat (pyStrip b.file_path) (pyStrip b.file_kind) (pyStrip b.file_name)]
      else []
    let next := pyStrip b.gate_next_flow
    if next ≠ "" then
      let dEvs : List Ev := if delay > 0 then [Ev.sleep delay] else []
      let rem := b.gate_reminder_seconds
      let rEvs : List Ev :=
        if rem > 0 ∧ b.id > 0 then [Ev.upsertJob chat (_job_gate b.id next) (env.now + rem)] else []
      let btn := if pyStrip b.gate_button_text ≠ "" then pyStrip b.gate_button_text else "Дальше"
      let prompt := if pyStrip b.gate_prompt_text ≠ "" then pyStrip b.gate_prompt_text else " "
      { evs := primary.1 ++ aEvs ++ dEvs ++ rEvs ++ [Ev.gatePrompt chat prompt btn b.id next]
        stop := true, menuOnce := primary.2 }
    else
      let dEvs : List Ev := if delay > 0 then [Ev.sleep delay] else []
      { evs := primary.1 ++ aEvs ++ dEvs, stop := false, menuOnce := primary.2 }

/-- Result of the whole block loop: events, whether it reached the end of the
list (`completed = true` iff no early `return` fired), and the final
`menu_attached_once` flag. -/
structure LoopOut where
  evs : List Ev
  completed : Bool
  menuOnce : Bool
deriving DecidableEq

/-- The `render_flow` block loop. -/
def renderLoop (env : Env) (chat : Int) (flow : String) (sp : Int) :
    List Block → Bool → LoopOut
  | [], m => ⟨[], true, m⟩
  | b :: rest, m =>
    if skipBlock sp b then renderLoop env chat flow sp rest m
    else
      let p := procBlock env chat flow m b
      if p.stop then ⟨p.evs, false, p.menuOnce⟩
      else
        let o := renderLoop env chat flow sp rest p.menuOnce
        ⟨p.evs ++ o.evs, o.completed, o.menuOnce⟩

/-- Key chosen by src/bot.py `_schedule_after_flow_actions` for one action:
`_job_action(action_id) if action_id > 0 else _job_flow(target)`. -/
def after_action_key (a : Action) : String :=
  if a.id > 0 then _job_action a.id else _job_flow (pyStrip a.target_flow)

/-- src/bot.py `_schedule_after_flow_actions`: enqueue one job per active
`start_flow` action of the finished flow. -/
def afterFlowEvents (env : Env) (uid : Int) (after : String) : List Ev :=
  (get_flow_actions env (some after)).flatMap (fun a =>
    if a.is_active ≠ 1 then []
    else if (if a.action_type = "" then "start_flow" else a.action_type) ≠ "start_flow" then []
    else if pyStrip a.target_flow = "" then []
    else [Ev.upsertJob uid (after_action_key a) (env.now + max a.delay_seconds 0)])

/-- src/bot.py `render_flow` (the body inside the per-user lock): load the
blocks, run the loop, and on normal completion apply the course-complete
unlock and the post-flow action scheduling. -/
def render_flow (env : Env) (chat : Int) (flowRaw : String) (sp : Int) : List Ev :=
  let flow := pyStrip flowRaw
  if flow = "" then []
  else
    let o := renderLoop env chat flow sp (env.blocksOf flow) false
    if o.completed then
      o.evs ++
        (if flow = env.courseFlow then
          [Ev.unlockLessons chat,
           Ev.sendMenuMsg chat "✅ Курс завершён! Уроки теперь доступны в меню." true]
        else []) ++
      afterFlowEvents env chat flow
    else o.evs

/-- Reminder text and button derived by the `gate:` dispatch branch of
`_execute_job_and_mark_done`: defaults `" "` / `"Дальше"`, overridden by the
block's nonblank `gate_reminder_text` / `gate_button_text` when the block
still exists. -/
def gateReminderMsg (env : Env) (bid : Int) : String × String :=
  match env.blockById bid with
  | none => (" ", "Дальше")
  | some b =>
    (if pyStrip b.gate_reminder_text ≠ "" then pyStrip b.gate_reminder_text else " ",
     if pyStrip b.gate_button_text ≠ "" then pyStrip b.gate_button_text else "Дальше")

/-- src/bot.py `_run_broadcast_job`. -/
def run_broadcast_job (env : Env) (uid : Int) (key : String) : List Ev :=
  let parts := (key.data.splitOn ':').map String.mk
  let fl := pyStrip (parts.getD 1 "")
  let audience := pyLower (pyStrip (parts.getD 2 ""))
  let rep := if parts.length ≥ 4 then (pyInt (parts.getD 3 "")).getD 0 else 0
  if fl = "" then []
  else
    (if audience = "all" then
      env.users.flatMap (fun w =>
        if w > 0 then Ev.renderCall w fl 0 :: render_flow env w fl 0 else [])
    else if audience ≠ "" ∧ allDigits audience.data then
      let w : Int := (natOfDigits audience.data : Nat)
      if w > 0 then Ev.renderCall w fl 0 :: render_flow env w fl 0 else []
    else
      Ev.renderCall uid fl 0 :: render_flow env uid fl 0) ++
    (if rep > 0 then [Ev.upsertJob uid key (env.now + rep)] else [])

/-- The dispatch section of src/bot.py `_execute_job_and_mark_done`
(lines 795-877): parse the job key and act on it. A `renderCall` event marks
each `render_flow` invocation, followed inline by that render's events. -/
def dispatch_job (env : Env) (uid : Int) (key : String) : List Ev :=
  match stripKeyTag "flow:".data key.data with
  | some rest =>
    let f := pyStrip (String.mk rest)
    if f ≠ "" ∧ _mode env.modes f = "auto" then Ev.renderCall uid f 0 :: render_flow env uid f 0
    else []
  | none =>
  match stripKeyTag "resume:".data key.data with
  | some rest =>
    (match splitOnceChar ':' rest with
    | none => []
    | some (flC, posC) =>
      let fl := pyStrip (String.mk flC)
      let pos := (pyInt (String.mk posC)).getD 0
      if fl ≠ "" ∧ pos > 0 then Ev.renderCall uid fl pos :: render_flow env uid fl pos
      else [])
  | none =>
  match stripKeyTag "action:".data key.data with
  | some rest =>
    let aid := (pyInt (pyStrip (String.mk rest))).getD 0
    if aid > 0 then
      match (get_flow_actions env none).find? (fun a => a.id == aid && a.is_active == 1) with
      | none => []
      | some a =>
        let target := pyStrip a.target_flow
        if target ≠ "" then Ev.renderCall uid target 0 :: render_flow env uid target 0
        else []
    else []
  | none =>
  match stripKeyTag "gate:".data key.data with
  | some rest =>
    (match splitOnceChar ':' rest with
    | none => []
    | some (bidC, nextC) =>
      match pyInt (String.mk bidC) with
      | none => []   -- `int(parts[1])` raises; the outer `except` swallows it
      | some bid =>
        let next := pyStrip (String.mk nextC)
        if bid > 0 ∧ is_gate_pressed env uid bid then []
        else
          let tb := gateReminderMsg env bid
          [Ev.gatePrompt uid tb.1 tb.2 bid next])
  | none =>
  match stripKeyTag "broadcast:".data key.data with
  | some _ => run_broadcast_job env uid key
  | none => []

/-- Scheduler-side state: the jobs table and the in-flight set
`_RUNNING_JOBS`. -/
structure SchedState where
  table : JobsTable
  running : List Nat
deriving DecidableEq

/-- Apply the `upsert_job` calls a dispatched handler performed to the jobs
table. -/
def applyJobEvents (evs : List Ev) (t : JobsTable) : JobsTable :=
  evs.foldl (fun acc e =>
    match e with
    | Ev.upsertJob u k r => upsert_job acc u k r
    | _ => acc) t

/-- src/bot.py `_execute_job_and_mark_done`, whole function: the dispatch
runs inside `try/except` (an exception interrupts it after an arbitrary
prefix of its effects, modelled by `handlerCut`), then the `finally` block
runs `mark_job_done` (which may itself fail, `markFails`) inside a nested
`try/finally` whose `finally` always removes the job id from
`_RUNNING_JOBS`. -/
def execute_job_and_mark_done (env : Env) (st : SchedState) (jid : Nat) (uid : Int)
    (key : String) (handlerCut : Option Nat) (markFails : Bool) : List Ev × SchedState :=
  let evsAll := dispatch_job env uid key
  let evs := match handlerCut with
    | some n => evsAll.take n
    | none => evsAll
  let t1 := applyJobEvents evs st.table
  let t2 := if markFails then t1 else mark_job_done jid t1
  (evs, { table := t2, running := st.running.filter (fun i => i != jid) })

/-- src/bot.py `schedule_from_flow_triggers`: for each stored trigger,
enqueue `flow:<name>` at `now + offset` when the trigger is active with a
non-negative offset and the flow's cached mode is `auto`. -/
def schedule_from_flow_triggers (env : Env) (uid : Int) : List Ev :=
  env.triggers.flatMap (fun tr =>
    let fl := pyStrip tr.flow
    if fl = "" ∨ tr.is_active ≠ 1 then []
    else if tr.offset_seconds < 0 then []
    else if _mode env.modes fl ≠ "auto" then []
    else [Ev.upsertJob uid (_job_flow fl) (env.now + tr.offset_seconds)])

/-- Effects of src/bot.py `cmd_start` (analytics aside): the jobs enqueued by
`schedule_from_flow_triggers` and the messages the handler itself sends. -/
structure StartOut where
  jobEvs : List Ev
  msgEvs : List Ev
deriving DecidableEq

/-- src/bot.py `cmd_start`: refresh the mode cache, schedule from the flow
triggers, and answer with the welcome menu message; it invokes no render. -/
def cmd_start (env : Env) (uid : Int) : StartOut :=
  { jobEvs := schedule_from_flow_triggers env uid
    msgEvs := [Ev.sendMenuMsg uid "👋 Добро пожаловать!" (env.unlocked uid)] }

/-- Lock-level events of a task: acquiring / releasing the per-user mutex
`_lock(uid)` and performing one awaited action while holding it. -/
inductive LEv
  | acq (u : Int)
  | snd (u : Int) (e : Ev)
  | rel (u : Int)
deriving DecidableEq

/-- The critical section of one task: acquire the user's lock, perform the
given actions, release. -/
def lockTrace (u : Int) (ms : List Ev) : List LEv :=
  LEv.acq u :: ms.map (LEv.snd u) ++ [LEv.rel u]

/-- `render_flow` as a locked task: src/bot.py wraps the whole body of
`render_flow` in `async with _lock(chat_id)`, so every awaited effect of the
render happens between the acquire and the release. -/
def renderLockTrace (env : Env) (chat : Int) (flow : String) (sp : Int) : List LEv :=
  lockTrace chat (render_flow env chat flow sp)

/-- A lock event tagged with which of two concurrent tasks performed it. -/
abbrev TEv := Bool × LEv

/-- Tag a whole trace with one task id. -/
def tagT (t : Bool) (l : List LEv) : List TEv := l.map (fun e => (t, e))

/-- `tr` is an order-preserving interleaving of the two task traces — the
set of executions a cooperative scheduler can produce. -/
inductive Interleave : List TEv → List TEv → List TEv → Prop
  | nil : Interleave [] [] []
  | left {x xs ys zs} : Interleave xs ys zs → Interleave (x :: xs) ys (x :: zs)
  | right {y xs ys zs} : Interleave xs ys zs → Interleave xs (y :: ys) (y :: zs)

/-- Which task currently holds the lock of user `u`, if any. -/
def holderOf : List (Int × Bool) → Int → Option Bool
  | [], _ => none
  | (v, t) :: h, u => if u = v then some t else holderOf h u

/-- Remove user `u`'s lock entry. -/
def dropHolder : List (Int × Bool) → Int → List (Int × Bool)
  | [], _ => []
  | (v, t) :: h, u => if u = v then dropHolder h u else (v, t) :: dropHolder h u

/-- Mutex semantics of `asyncio.Lock`: an acquire only proceeds when the
lock is free, a release only by the holder; other actions do not touch the
lock state. `none` marks an impossible step. -/
def lockStep (h : List (Int × Bool)) : TEv → Option (List (Int × Bool))
  | (t, .acq u) =>
    match holderOf h u with
    | some _ => none
    | none => some ((u, t) :: h)
  | (t, .rel u) => if holderOf h u = some t then some (dropHolder h u) else none
  | (_, .snd _ _) => some h

/-- A trace is admissible for the per-user mutexes. -/
def lockOK : List (Int × Bool) → List TEv → Bool
  | _, [] => true
  | h, e :: tr =>
    match lockStep h e with
    | none => false
    | some h2 => lockOK h2 tr

/-- The Delivery Sink actions of a trace (the `snd` events). -/
def sinkEvs (tr : List TEv) : List TEv :=
  tr.filter (fun e =>
    match e.2 with
    | .snd _ _ => true
    | _ => false)

/-- A plain active text block with the given flow, text and delay
(a concrete authoring-console product used as test input). -/
def demoTextBlock (fl txt : String) (d : ℚ) : Block :=
  { id := 1, flow := fl, position := 1, type := "text", title := "", text := txt,
    circle := "", video := "", buttons := "", is_active := 1, delay := d,
    file_path := "", file_kind := "", file_name := "", gate_next_flow := "",
    gate_button_text := "", gate_prompt_text := "", gate_reminder_seconds := 0,
    gate_reminder_text := "" }

/-- Empty environment (concrete test input). -/
def baseEnv : Env :=
  { modes := [], blocksOf := fun _ => [], blockById := fun _ => none, actionsAll := [],
    triggers := [], pressed := [], users := [], kbOf := fun _ => none,
    unlocked := fun _ => false, now := 0, courseFlow := "day3" }

/-- Environment whose flow `"f"` is one text block of delay `d`. -/
def oneTextEnv (d : ℚ) : Env :=
  { baseEnv with blocksOf := fun g => if g = "f" then [demoTextBlock "f" "hi" d] else [] }

/-- The pending job a start-triggered `day1` enqueue produces (test input). -/
def c4Job : Job := ⟨1, 7, "flow:day1", 500, false⟩

/-- A store holding flow `day1`, its block, its trigger and its pending job
(test input for `delete_flow`). -/
def c4Store : Store :=
  { content_blocks := [demoTextBlock "day1" "hello" 0]
    jobs := [c4Job]
    flow_triggers := [⟨"day1", "after_start", 0, 1⟩]
    flows := [("day1", 1)] }

/-- Environment with one active `day1` trigger of offset `0`, mode `auto`
(test input for start handling). -/
def c3Env : Env :=
  { baseEnv with
    triggers := [⟨"day1", "after_start", 0, 1⟩]
    modes := [("day1", "auto")]
    now := 1000
    blocksOf := fun g => if g = "day1" then [demoTextBlock "day1" "hello" 0] else [] }

/-- Scheduler state with one due `flow:day2` job, id `3`, in flight
(test input). -/
def c5State : SchedState := ⟨⟨[⟨3, 7, "flow:day2", 100, false⟩], 4⟩, [3]⟩

/-- Environment where flow `day2` is in mode `manual` (test input). -/
def c5Env : Env := { baseEnv with modes := [("day2", "manual")] }

/-- Scheduler state with one due job id `5` and two in-flight ids
(test input). -/
def c6State : SchedState := ⟨⟨[⟨5, 2, "flow:x", 50, false⟩], 6⟩, [5, 8]⟩

/-- A gate block with custom reminder text and button (test input). -/
def c7Block : Block :=
  { demoTextBlock "day1" "" 0 with
    id := 6, gate_next_flow := "day2", gate_reminder_text := " Жми сюда ",
    gate_button_text := "Go" }

/-- Environment where user `7` already pressed gate block `5`, and block `6`
still exists with custom reminder fields (test input). -/
def c7Env : Env :=
  { baseEnv with
    pressed := [(7, 5)]
    blockById := fun i => if i = 6 then some c7Block else none }

/-- Second block of the two-message demo flow. -/
def demoTextBlockB : Block := { demoTextBlock "fa" "b" 0 with id := 2, position := 2 }

/-- Environment whose flow `"fa"` renders exactly two text messages
(test input for the serialization claim). -/
def twoMsgEnv : Env :=
  { baseEnv with
    blocksOf := fun g => if g = "fa" then [demoTextBlock "fa" "a" 0, demoTextBlockB] else [] }

/-- A lock-admissible schedule of two two-message renders for distinct users
`u` and `v` in which the Delivery Sink calls do interleave. -/
def demoInterleaved (u v : Int) : List TEv :=
  [(false, .acq u), (true, .acq v),
   (false, .snd u (Ev.sendMsg u "a" none)), (true, .snd v (Ev.sendMsg v "a" none)),
   (false, .snd u (Ev.sendMsg u "b" none)), (true, .snd v (Ev.sendMsg v "b" none)),
   (false, .rel u), (true, .rel v)]

/-- An active video block whose video reference is blank (test input). -/
def c9VideoBlock : Block :=
  { demoTextBlock "vd" "watch this" 0 with id := 3, type := "video", video := "" }

/-- Environment whose flow `"vd"` is a single blank-video block followed by a
text block (test input). -/
def c9Env : Env :=
  { baseEnv with
    blocksOf := fun g =>
      if g = "vd" then [c9VideoBlock, { demoTextBlock "vd" "later" 0 with id := 4, position := 2 }]
      else [] }

/-- Post-flow actions for `day1`: one with a non-positive id targeting
`day2`, one with positive id `4` targeting `day3`; both targets are in mode
`manual` (test input). -/
def c10Env : Env :=
  { baseEnv with
    actionsAll := [⟨0, "day1", "day2", 5, 1, "start_flow"⟩,
                   ⟨4, "day1", "day3", 0, 1, "start_flow"⟩]
    modes := [("day2", "manual"), ("day3", "manual")]
    now := 50 }

theorem render_flow_oneText (d : ℚ) :
    render_flow (oneTextEnv d) 9 "f" 0 =
      Ev.sendMsg 9 "hi" none :: (if d > 0 then [Ev.sleep d] else []) := by
  have h : render_flow (oneTextEnv d) 9 "f" 0 =
      (([Ev.sendMsg 9 "hi" none] ++ [] ++ (if d > 0 then [Ev.sleep d] else [])) ++ []) ++
        (if pyStrip "f" = (oneTextEnv d).courseFlow then
          [Ev.unlockLessons 9,
           Ev.sendMenuMsg 9 "✅ Курс завершён! Уроки теперь доступны в меню." true]
        else []) ++
        afterFlowEvents (oneTextEnv d) 9 (pyStrip "f") := rfl
  have h2 : afterFlowEvents (oneTextEnv d) 9 (pyStrip "f") = [] := rfl
  have hc : (oneTextEnv d).courseFlow = "day3" := rfl
  have h3 : ¬ pyStrip "f" = "day3" := by decide
  rw [h, hc, h2, if_neg h3]
  simp

/-- C1 counterexample: a missing (`NULL`) `delay_seconds` cell does not
normalize to a `0`-second pause — `get_blocks` turns it into the default
`1.0` and `render_flow` sleeps one second for the block. -/
theorem c1_delay_counterexample :
    render_pause_of_cell SqlVal.null ≠ some 0 ∧
    render_pause_of_cell SqlVal.null = some 1 := by
  constructor
  · intro h
    simp [render_pause_of_cell, get_blocks_delay, pyTruthy, pyFloatVal] at h
  · rfl

/-- C1 (amended): the normalization boundary `float(r[10] or 1.0)` of
src/db.py `get_blocks` sends a missing or blank `delay_seconds` to the
default `1.0` (one second of pause in `render_flow`), not to `0`; a negative
stored delay yields no pause (`delay > 0` guard); a non-numeric stored delay
makes `get_blocks` raise, so `render_flow` aborts and renders nothing; and
`render_flow` sleeps after a block exactly when its loaded delay is
positive. -/
theorem c1_delay_normalization :
    (render_pause_of_cell SqlVal.null = some 1) ∧
    (render_pause_of_cell (SqlVal.text "") = some 1) ∧
    (∀ q : ℚ, q < 0 → render_pause_of_cell (SqlVal.real q) = some 0) ∧
    (∀ s : String, s ≠ "" → pyFloat s = none →
      render_pause_of_cell (SqlVal.text s) = none) ∧
    (∀ d : ℚ, d ≤ 0 → Ev.sleep d ∉ render_flow (oneTextEnv d) 9 "f" 0) ∧
    (∀ d : ℚ, 0 < d →
      render_flow (oneTextEnv d) 9 "f" 0 = [Ev.sendMsg 9 "hi" none, Ev.sleep d]) := by
  refine ⟨rfl, rfl, ?_, ?_, ?_, ?_⟩
  · intro q hq
    have h0 : q ≠ 0 := ne_of_lt hq
    have h1 : ¬ q > 0 := not_lt.2 (le_of_lt hq)
    simp [render_pause_of_cell, get_blocks_delay, pyTruthy, pyFloatVal, h0, h1]
  · intro s hs hf
    simp [render_pause_of_cell, get_blocks_delay, pyTruthy, pyFloatVal, hs, hf]
  · intro d hd
    have h1 : ¬ d > 0 := not_lt.2 hd
    rw [render_flow_oneText, if_neg h1]
    simp
  · intro d hd
    rw [render_flow_oneText, if_pos hd]

/-- C1 witness: the amended theorem applied at the concrete cells `-1` and
`"abc"`, and at concrete delays `-1` and `2`. -/
theorem c1_delay_normalization_witness :
    render_pause_of_cell (SqlVal.real (-1)) = some 0 ∧
    render_pause_of_cell (SqlVal.text "abc") = none ∧
    Ev.sleep (-1) ∉ render_flow (oneTextEnv (-1)) 9 "f" 0 ∧
    render_flow (oneTextEnv 2) 9 "f" 0 = [Ev.sendMsg 9 "hi" none, Ev.sleep 2] :=
  ⟨c1_delay_normalization.2.2.1 (-1) (by norm_num),
   c1_delay_normalization.2.2.2.1 "abc" (by decide) (by decide),
   c1_delay_normalization.2.2.2.2.1 (-1) (by norm_num),
   c1_delay_normalization.2.2.2.2.2 2 (by norm_num)⟩

theorem jobMatches_update (u : Int) (k : String) (t2 : Int) (j : Job) (u2 : Int) (k2 : String) :
    jobMatches u2 k2
      (if jobMatches u k j then { j with run_at := t2, done := false } else j) =
      jobMatches u2 k2 j := by
  by_cases h : jobMatches u k j = true
  · rw [if_pos h]
    rfl
  · rw [if_neg h]

theorem upsert_rows_update (t : JobsTable) (u : Int) (k : String) (time : Int)
    (hne : ¬ pyStrip k = "") (hany : t.rows.any (jobMatches u (pyStrip k)) = true) :
    (upsert_job t u k time).rows = t.rows.map (fun j =>
      if jobMatches u (pyStrip k) j then { j with run_at := time, done := false } else j) := by
  unfold upsert_job
  rw [if_neg hne, if_pos hany]

theorem upsert_rows_insert (t : JobsTable) (u : Int) (k : String) (time : Int)
    (hne : ¬ pyStrip k = "") (hany : ¬ t.rows.any (jobMatches u (pyStrip k)) = true) :
    (upsert_job t u k time).rows = t.rows ++ [⟨t.nextId, u, pyStrip k, time, false⟩] := by
  unfold upsert_job
  rw [if_neg hne, if_neg hany]

theorem countP_update_rows (t : JobsTable) (u : Int) (k : String) (time : Int)
    (u2 : Int) (k2 : String) :
    (t.rows.map (fun j =>
      if jobMatches u k j then { j with run_at := time, done := false } else j)).countP
        (jobMatches u2 k2) = t.rows.countP (jobMatches u2 k2) := by
  rw [List.countP_map]
  apply List.countP_congr
  intro j _
  simp only [Function.comp]
  rw [jobMatches_update]

theorem countP_zero_of_not_any (p : Job → Bool) (l : List Job)
    (h : ¬ l.any p = true) : l.countP p = 0 := by
  rw [List.countP_eq_zero]
  intro a ha hpa
  exact h (List.any_eq_true.2 ⟨a, ha, hpa⟩)

theorem countP_upsert_preserved (t : JobsTable) (u : Int) (k : String) (time : Int)
    (u2 : Int) (k2 : String) (hle : t.rows.countP (jobMatches u2 k2) ≤ 1) :
    (upsert_job t u k time).rows.countP (jobMatches u2 k2) ≤ 1 := by
  by_cases hk : pyStrip k = ""
  · unfold upsert_job
    rw [if_pos hk]
    exact hle
  · by_cases hany : t.rows.any (jobMatches u (pyStrip k)) = true
    · rw [upsert_rows_update t u k time hk hany, countP_update_rows]
      exact hle
    · rw [upsert_rows_insert t u k time hk hany, List.countP_append]
      by_cases hm : jobMatches u2 k2 ⟨t.nextId, u, pyStrip k, time, false⟩ = true
      · have hu : u = u2 ∧ pyStrip k = k2 := by
          simpa [jobMatches] using hm
        have hz : t.rows.countP (jobMatches u2 k2) = 0 := by
          apply countP_zero_of_not_any
          intro hc
          apply hany
          rw [← hu.1, ← hu.2] at hc
          exact hc
        simp [hz, hm]
      · rw [List.countP_cons, List.countP_nil, if_neg hm]
        omega

theorem countP_upsert_self (t : JobsTable) (u : Int) (k : String) (time : Int)
    (hk : pyStrip k = k) (hne : k ≠ "")
    (hle : t.rows.countP (jobMatches u k) ≤ 1) :
    (upsert_job t u k time).rows.countP (jobMatches u k) = 1 := by
  have hne2 : ¬ pyStrip k = "" := by rw [hk]; exact hne
  by_cases hany : t.rows.any (jobMatches u (pyStrip k)) = true
  · rw [upsert_rows_update t u k time hne2 hany, countP_update_rows]
    rw [hk] at hany
    have hpos : 0 < t.rows.countP (jobMatches u k) :=
      List.countP_pos_iff.2 (List.any_eq_true.1 hany)
    omega
  · rw [upsert_rows_insert t u k time hne2 hany, List.countP_append]
    rw [hk] at hany
    have hz : t.rows.countP (jobMatches u k) = 0 := countP_zero_of_not_any _ _ hany
    have hm : jobMatches u k ⟨t.nextId, u, pyStrip k, time, false⟩ = true := by
      simp [jobMatches, hk]
    simp [hz, hm]

theorem upsert_fields (t : JobsTable) (u : Int) (k : String) (time : Int)
    (hk : pyStrip k = k) (hne : k ≠ "") :
    ∀ j ∈ (upsert_job t u k time).rows, jobMatches u k j = true →
      j.run_at = time ∧ j.done = false := by
  have hne2 : ¬ pyStrip k = "" := by rw [hk]; exact hne
  by_cases hany : t.rows.any (jobMatches u (pyStrip k)) = true
  · rw [upsert_rows_update t u k time hne2 hany]
    rw [hk] at hany ⊢
    intro j hj hm
    rcases List.mem_map.1 hj with ⟨j0, hj0, hup⟩
    by_cases hm0 : jobMatches u k j0 = true
    · rw [if_pos hm0] at hup
      rw [← hup]
      exact ⟨rfl, rfl⟩
    · rw [if_neg hm0] at hup
      rw [← hup] at hm
      exact absurd hm hm0
  · rw [upsert_rows_insert t u k time hne2 hany]
    rw [hk] at hany ⊢
    intro j hj hm
    rcases List.mem_append.1 hj with hj1 | hj2
    · exact absurd hm (by
        intro hc
        exact hany (List.any_eq_true.2 ⟨j, hj1, hc⟩))
    · rcases List.mem_singleton.1 hj2 with rfl
      exact ⟨rfl, rfl⟩

/-- C2: `upsert_job(u, k, t1)` then `upsert_job(u, k, t2)` leaves exactly one
row for `(u, k)`, with `run_at = t2` and `done` reset to `false`, and the
`(user_id, key)` uniqueness invariant of the `ux_jobs_user_flow` index is
preserved for every pair — no duplicate row is ever created. `k` ranges over
job keys: trimmed, nonempty strings (every key the engine builds has a
nonblank prefix such as `flow:`). -/
theorem c2_upsert_job_idempotent (t : JobsTable) (u : Int) (k : String) (t1 t2 : Int)
    (hinv : ∀ u2 k2, t.rows.countP (jobMatches u2 k2) ≤ 1)
    (hk : pyStrip k = k) (hne : k ≠ "") :
    ((upsert_job (upsert_job t u k t1) u k t2).rows.countP (jobMatches u k) = 1) ∧
    (∀ j ∈ (upsert_job (upsert_job t u k t1) u k t2).rows,
      jobMatches u k j = true → j.run_at = t2 ∧ j.done = false) ∧
    (∀ u2 k2,
      (upsert_job (upsert_job t u k t1) u k t2).rows.countP (jobMatches u2 k2) ≤ 1) := by
  have h1 : (upsert_job t u k t1).rows.countP (jobMatches u k) = 1 :=
    countP_upsert_self t u k t1 hk hne (hinv u k)
  refine ⟨?_, ?_, ?_⟩
  · exact countP_upsert_self _ u k t2 hk hne (by omega)
  · exact upsert_fields _ u k t2 hk hne
  · intro u2 k2
    exact countP_upsert_preserved _ u k t2 u2 k2
      (countP_upsert_preserved t u k t1 u2 k2 (hinv u2 k2))

/-- C2 witness: the theorem applied to the empty table, user `1`, key
`"flow:day1"`, times `5` then `9`. -/
theorem c2_upsert_job_idempotent_witness :
    ((upsert_job (upsert_job ⟨[], 1⟩ 1 "flow:day1" 5) 1 "flow:day1" 9).rows.countP
      (jobMatches 1 "flow:day1") = 1) ∧
    (∀ j ∈ (upsert_job (upsert_job ⟨[], 1⟩ 1 "flow:day1" 5) 1 "flow:day1" 9).rows,
      jobMatches 1 "flow:day1" j = true → j.run_at = 9 ∧ j.done = false) := by
  have h := c2_upsert_job_idempotent ⟨[], 1⟩ 1 "flow:day1" 5 9
    (by intro u2 k2; simp) (by decide) (by decide)
  exact ⟨h.1, h.2.1⟩

/-- C4: the code evaluated at the failing input. `delete_flow "day1"` on a
store holding `day1`'s block, trigger, flow row and a pending job keyed
`flow:day1` (the key `_job_flow` gives every start-trigger job) removes the
block, the trigger and the flow row but leaves the pending job: the
`DELETE FROM jobs WHERE flow=?` statement compares the stored job key
against the bare flow name, which never matches the prefixed keys
src/bot.py enqueues. -/
theorem c4_delete_flow_leaves_prefixed_jobs :
    delete_flow c4Store "day1" =
      { content_blocks := [], jobs := [c4Job], flow_triggers := [], flows := [] } ∧
    c4Job.key = _job_flow "day1" ∧
    c4Job.done = false := by
  refine ⟨by decide, by decide, rfl⟩

/-- C3 counterexample: with an active `auto` trigger for `day1` at offset
exactly `0`, handling `/start` at `now = 1000` does not render `day1` inside
the call — it only enqueues the job `flow:day1` with `run_at = now`, to be
picked up by the scheduler's poll loop, and answers with the menu message. -/
theorem c3_zero_offset_counterexample :
    (cmd_start c3Env 7).jobEvs = [Ev.upsertJob 7 "flow:day1" 1000] ∧
    (cmd_start c3Env 7).msgEvs = [Ev.sendMenuMsg 7 "👋 Добро пожаловать!" false] ∧
    Ev.renderCall 7 "day1" 0 ∉ (cmd_start c3Env 7).jobEvs ++ (cmd_start c3Env 7).msgEvs ∧
    Ev.sendMsg 7 "hello" none ∉ (cmd_start c3Env 7).jobEvs ++ (cmd_start c3Env 7).msgEvs ∧
    c3Env.now = 1000 := by
  refine ⟨by decide, by decide, by decide, by decide, rfl⟩

/-- C3 (amended): for every flow trigger that is active, in mode `auto`, and
has offset exactly `0`, the start handler enqueues the job `flow:<f>` with
`run_at = now` (one poll tick away), and performs no render of its own
during start handling: delivery is left to the scheduler. -/
theorem c3_zero_offset_enqueues_job :
    ∀ (env : Env) (uid : Int) (tr : Trigger), tr ∈ env.triggers →
      pyStrip tr.flow ≠ "" → tr.is_active = 1 → tr.offset_seconds = 0 →
      _mode env.modes (pyStrip tr.flow) = "auto" →
      Ev.upsertJob uid (_job_flow (pyStrip tr.flow)) env.now ∈ (cmd_start env uid).jobEvs ∧
      (∀ f sp, Ev.renderCall uid f sp ∉ (cmd_start env uid).jobEvs) ∧
      (∀ f sp, Ev.renderCall uid f sp ∉ (cmd_start env uid).msgEvs) := by
  intro env uid tr htr hfl hact hoff hmode
  refine ⟨?_, ?_, ?_⟩
  · show Ev.upsertJob uid (_job_flow (pyStrip tr.flow)) env.now ∈
      schedule_from_flow_triggers env uid
    unfold schedule_from_flow_triggers
    apply List.mem_flatMap.2
    refine ⟨tr, htr, ?_⟩
    rw [if_neg (by simp [hfl, hact]), if_neg (by simp [hoff]), if_neg (by simp [hmode])]
    simp [hoff]
  · intro f sp hmem
    rcases List.mem_flatMap.1 hmem with ⟨a, -, hin⟩
    split_ifs at hin <;> simp_all
  · intro f sp hmem
    simp [cmd_start] at hmem

/-- C3 witness: the amended theorem applied at the concrete environment
`c3Env`, user `7`, and its trigger row. -/
theorem c3_zero_offset_enqueues_job_witness :
    Ev.upsertJob 7 "flow:day1" 1000 ∈ (cmd_start c3Env 7).jobEvs ∧
    Ev.renderCall 7 "day1" 0 ∉ (cmd_start c3Env 7).jobEvs ∧
    Ev.renderCall 7 "day1" 0 ∉ (cmd_start c3Env 7).msgEvs := by
  have h := c3_zero_offset_enqueues_job c3Env 7 ⟨"day1", "after_start", 0, 1⟩
    (by decide) (by decide) rfl rfl (by decide)
  exact ⟨h.1, h.2.1 "day1" 0, h.2.2 "day1" 0⟩

theorem strEta (s : String) : String.mk s.data = s := rfl

theorem stripKeyTag_append (p s : List Char) : stripKeyTag p (p ++ s) = some s := by
  induction p with
  | nil => rfl
  | cons c cs ih => simp [stripKeyTag, ih]

theorem splitOnce_mid (l r : List Char) (h : ':' ∉ l) :
    splitOnceChar ':' (l ++ ':' :: r) = some (l, r) := by
  induction l with
  | nil => simp [splitOnceChar]
  | cons c cs ih =>
    simp only [List.mem_cons, not_or] at h
    have hcn : ¬ c = ':' := fun hc => h.1 hc.symm
    simp [splitOnceChar, hcn, ih h.2]

theorem dropWhile_rdropWhile {α : Type} (p : α → Bool) (l : List α)
    (hl : List.dropWhile p l = l) :
    List.dropWhile p (List.rdropWhile p l) = List.rdropWhile p l := by
  rcases hpre : List.rdropWhile p l with _ | ⟨c, rest⟩
  · simp
  · rw [List.dropWhile_cons]
    have hpfx : List.rdropWhile p l <+: l := List.rdropWhile_prefix p l
    rw [hpre] at hpfx
    rcases hpfx with ⟨t, ht⟩
    have hc : ¬ p c = true := by
      have hhead := List.dropWhile_eq_self_iff.1 hl
      rw [← ht] at hhead
      have := hhead (by simp)
      simpa using this
    rw [if_neg hc]

theorem pyStripChars_idem (l : List Char) :
    pyStripChars (pyStripChars l) = pyStripChars l := by
  show List.rdropWhile pySpace
      (List.dropWhile pySpace (List.rdropWhile pySpace (List.dropWhile pySpace l))) =
    List.rdropWhile pySpace (List.dropWhile pySpace l)
  rw [dropWhile_rdropWhile pySpace _ (List.dropWhile_idempotent pySpace _),
    List.rdropWhile_idempotent]

theorem pyStrip_idem (s : String) : pyStrip (pyStrip s) = pyStrip s :=
  congrArg String.mk (pyStripChars_idem s.data)

theorem flowKeyData (r : String) :
    ("flow:" ++ r).data = 'f' :: 'l' :: 'o' :: 'w' :: ':' :: r.data := by
  rw [String.data_append]
  rfl

theorem gateKeyData (r : String) :
    ("gate:" ++ r).data = 'g' :: 'a' :: 't' :: 'e' :: ':' :: r.data := by
  rw [String.data_append]
  rfl

theorem actionKeyData (r : String) :
    ("action:" ++ r).data = 'a' :: 'c' :: 't' :: 'i' :: 'o' :: 'n' :: ':' :: r.data := by
  rw [String.data_append]
  rfl

theorem gateRestData (bidS next : String) :
    (bidS ++ ":" ++ next).data = bidS.data ++ ':' :: next.data := by
  rw [String.data_append, String.data_append, List.append_assoc]
  rfl

theorem flow_take_flow (R : List Char) :
    stripKeyTag ['f', 'l', 'o', 'w', ':'] ('f' :: 'l' :: 'o' :: 'w' :: ':' :: R) = some R := rfl

theorem flow_skip_gate (R : List Char) :
    stripKeyTag ['f', 'l', 'o', 'w', ':'] ('g' :: 'a' :: 't' :: 'e' :: ':' :: R) = none := rfl

theorem resume_skip_gate (R : List Char) :
    stripKeyTag ['r', 'e', 's', 'u', 'm', 'e', ':']
      ('g' :: 'a' :: 't' :: 'e' :: ':' :: R) = none := rfl

theorem action_skip_gate (R : List Char) :
    stripKeyTag ['a', 'c', 't', 'i', 'o', 'n', ':']
      ('g' :: 'a' :: 't' :: 'e' :: ':' :: R) = none := rfl

theorem gate_take_gate (R : List Char) :
    stripKeyTag ['g', 'a', 't', 'e', ':'] ('g' :: 'a' :: 't' :: 'e' :: ':' :: R) = some R := rfl

theorem flow_skip_action (R : List Char) :
    stripKeyTag ['f', 'l', 'o', 'w', ':']
      ('a' :: 'c' :: 't' :: 'i' :: 'o' :: 'n' :: ':' :: R) = none := rfl

theorem resume_skip_action (R : List Char) :
    stripKeyTag ['r', 'e', 's', 'u', 'm', 'e', ':']
      ('a' :: 'c' :: 't' :: 'i' :: 'o' :: 'n' :: ':' :: R) = none := rfl

theorem action_take_action (R : List Char) :
    stripKeyTag ['a', 'c', 't', 'i', 'o', 'n', ':']
      ('a' :: 'c' :: 't' :: 'i' :: 'o' :: 'n' :: ':' :: R) = some R := rfl

theorem dispatch_flow_key (env : Env) (uid : Int) (f : String) (hk : pyStrip f = f) :
    dispatch_job env uid ("flow:" ++ f) =
      (if f ≠ "" ∧ _mode env.modes f = "auto" then
        Ev.renderCall uid f 0 :: render_flow env uid f 0
      else []) := by
  unfold dispatch_job
  rw [String.data_append, stripKeyTag_append]
  simp only [strEta, hk]

theorem dispatch_gate_key (env : Env) (uid : Int) (bidS next : String) (bid : Int)
    (hbid : pyInt bidS = some bid) (hnc : ':' ∉ bidS.data) :
    dispatch_job env uid ("gate:" ++ (bidS ++ ":" ++ next)) =
      (if bid > 0 ∧ is_gate_pressed env uid bid then []
      else [Ev.gatePrompt uid (gateReminderMsg env bid).1 (gateReminderMsg env bid).2 bid
        (pyStrip next)]) := by
  unfold dispatch_job
  rw [gateKeyData, gateRestData]
  simp only [flow_skip_gate, resume_skip_gate, action_skip_gate, gate_take_gate]
  rw [splitOnce_mid _ _ hnc]
  simp only [strEta, hbid]

theorem dispatch_action_key (env : Env) (uid : Int) (aidS : String) (aid : Int)
    (haid : pyInt (pyStrip aidS) = some aid) :
    dispatch_job env uid ("action:" ++ aidS) =
      (if aid > 0 then
        match (get_flow_actions env none).find? (fun a => a.id == aid && a.is_active == 1) with
        | none => []
        | some a =>
          if pyStrip a.target_flow ≠ "" then
            Ev.renderCall uid (pyStrip a.target_flow) 0 ::
              render_flow env uid (pyStrip a.target_flow) 0
          else []
      else []) := by
  unfold dispatch_job
  rw [actionKeyData]
  simp only [flow_skip_action, resume_skip_action, action_take_action]
  simp only [strEta, haid, Option.getD_some]

theorem mark_job_done_sets (t : JobsTable) (jid : Nat) :
    ∀ j ∈ (mark_job_done jid t).rows, j.id = jid → j.done = true := by
  intro j hj hid
  rcases List.mem_map.1 hj with ⟨j0, hj0, hup⟩
  by_cases h : j0.id = jid
  · rw [if_pos h] at hup
    rw [← hup]
  · rw [if_neg h] at hup
    rw [← hup] at hid
    exact absurd hid h

/-- C5: dispatching a due `flow:<f>` job renders `f` for the job's user if and
only if `f`'s mode, as seen in the flow-mode cache at fire time, is `auto`;
in either case the job row is marked done, so a job enqueued while the mode
was `auto` but switched to `manual` or `off` before `run_at` is consumed
without rendering. -/
theorem c5_flow_dispatch_mode_gated :
    ∀ (env : Env) (st : SchedState) (jid : Nat) (uid : Int) (f : String),
      pyStrip f = f → f ≠ "" →
      ((Ev.renderCall uid f 0 ∈
          (execute_job_and_mark_done env st jid uid ("flow:" ++ f) none false).1) ↔
        _mode env.modes f = "auto") ∧
      (∀ j ∈ (execute_job_and_mark_done env st jid uid ("flow:" ++ f) none false).2.table.rows,
        j.id = jid → j.done = true) := by
  intro env st jid uid f hk hne
  constructor
  · show (Ev.renderCall uid f 0 ∈ dispatch_job env uid ("flow:" ++ f)) ↔ _
    rw [dispatch_flow_key env uid f hk]
    constructor
    · intro hmem
      by_cases hm : _mode env.modes f = "auto"
      · exact hm
      · rw [if_neg (by simp [hm])] at hmem
        simp at hmem
    · intro hm
      rw [if_pos ⟨hne, hm⟩]
      exact List.mem_cons_self _ _
  · intro j hj hjid
    exact mark_job_done_sets _ jid j hj hjid

/-- C5 witness: the theorem applied at `c5Env` (where `day2` is `manual`) and
the in-flight due job `flow:day2`: no render happens and the job is done. -/
theorem c5_flow_dispatch_mode_gated_witness :
    (Ev.renderCall 7 "day2" 0 ∉
      (execute_job_and_mark_done c5Env c5State 3 7 "flow:day2" none false).1) ∧
    ((⟨3, 7, "flow:day2", 100, true⟩ : Job) ∈
      (execute_job_and_mark_done c5Env c5State 3 7 "flow:day2" none false).2.table.rows) := by
  have h := c5_flow_dispatch_mode_gated c5Env c5State 3 7 "day2" (by decide) (by decide)
  constructor
  · intro hmem
    exact absurd (h.1.1 hmem) (by decide)
  · decide

/-- C6: after a dispatched job's handler completes — normally or interrupted
by an exception after an arbitrary prefix of its effects — the job row is
marked done and the job id is removed from the in-flight set; and even when
`mark_job_done` itself fails, the id is still removed from the in-flight
set. -/
theorem c6_always_release_in_flight :
    ∀ (env : Env) (st : SchedState) (jid : Nat) (uid : Int) (key : String)
      (handlerCut : Option Nat) (markFails : Bool),
      (jid ∉ (execute_job_and_mark_done env st jid uid key handlerCut markFails).2.running) ∧
      (markFails = false →
        ∀ j ∈ (execute_job_and_mark_done env st jid uid key handlerCut markFails).2.table.rows,
          j.id = jid → j.done = true) := by
  intro env st jid uid key hc mf
  constructor
  · intro hmem
    have := (List.mem_filter.1 hmem).2
    simp at this
  · intro hmf j hj hjid
    rw [hmf] at hj
    exact mark_job_done_sets _ jid j hj hjid

/-- C6 witness: the theorem applied at the concrete state `c6State` with job
id `5` (whose handler key is `flow:x`): the id leaves the in-flight set and
the row ends up done. -/
theorem c6_always_release_in_flight_witness :
    (5 ∉ (execute_job_and_mark_done baseEnv c6State 5 2 "flow:x" none false).2.running) ∧
    ((⟨5, 2, "flow:x", 50, true⟩ : Job).done = true) := by
  have h := c6_always_release_in_flight baseEnv c6State 5 2 "flow:x" none false
  exact ⟨h.1, h.2 rfl ⟨5, 2, "flow:x", 50, true⟩ (by decide) rfl⟩

/-- C7: dispatching a due `gate:<block_id>:<next_flow>` job is a silent no-op
when a Gate-Pressed Record exists for `(user, block_id)` at fire time;
otherwise exactly one reminder message is sent, whose text and button are
re-derived from the block when it still exists (nonblank
`gate_reminder_text` / `gate_button_text` override) and fall back to the
defaults `" "` / `"Дальше"` when the block is gone. -/
theorem c7_gate_reminder_dispatch :
    ∀ (env : Env) (uid : Int) (bidS next : String) (bid : Int),
      pyInt bidS = some bid → ':' ∉ bidS.data → bid > 0 →
      (is_gate_pressed env uid bid →
        dispatch_job env uid ("gate:" ++ (bidS ++ ":" ++ next)) = []) ∧
      (¬ is_gate_pressed env uid bid →
        dispatch_job env uid ("gate:" ++ (bidS ++ ":" ++ next)) =
          [Ev.gatePrompt uid (gateReminderMsg env bid).1 (gateReminderMsg env bid).2 bid
            (pyStrip next)]) ∧
      (env.blockById bid = none → gateReminderMsg env bid = (" ", "Дальше")) ∧
      (∀ b, env.blockById bid = some b →
        gateReminderMsg env bid =
          ((if pyStrip b.gate_reminder_text ≠ "" then pyStrip b.gate_reminder_text else " "),
           (if pyStrip b.gate_button_text ≠ "" then pyStrip b.gate_button_text
            else "Дальше"))) := by
  intro env uid bidS next bid hbid hnc hpos
  refine ⟨?_, ?_, ?_, ?_⟩
  · intro hpr
    rw [dispatch_gate_key env uid bidS next bid hbid hnc, if_pos ⟨hpos, hpr⟩]
  · intro hpr
    rw [dispatch_gate_key env uid bidS next bid hbid hnc, if_neg (fun h => hpr h.2)]
  · intro hnone
    unfold gateReminderMsg
    rw [hnone]
  · intro b hb
    unfold gateReminderMsg
    rw [hb]

/-- C7 witness: the theorem applied in `c7Env` — the pressed gate `5` is a
no-op; the unpressed gate `9` with no surviving block sends the default
reminder; and the reminder fields for the surviving block `6` are its custom
stripped text and button. -/
theorem c7_gate_reminder_dispatch_witness :
    dispatch_job c7Env 7 "gate:5:day2" = [] ∧
    dispatch_job c7Env 7 "gate:9:day2" = [Ev.gatePrompt 7 " " "Дальше" 9 "day2"] ∧
    gateReminderMsg c7Env 6 = ("Жми сюда", "Go") := by
  have h5 := c7_gate_reminder_dispatch c7Env 7 "5" "day2" 5 (by decide) (by decide) (by decide)
  have h9 := c7_gate_reminder_dispatch c7Env 7 "9" "day2" 9 (by decide) (by decide) (by decide)
  have h6 := c7_gate_reminder_dispatch c7Env 7 "6" "day2" 6 (by decide) (by decide) (by decide)
  refine ⟨h5.1 (by decide), ?_, ?_⟩
  · have hd := h9.2.1 (by decide)
    have hmsg : gateReminderMsg c7Env 9 = (" ", "Дальше") := h9.2.2.1 (by decide)
    rw [hmsg] at hd
    exact hd
  · have := h6.2.2.2 c7Block (by decide)
    rw [this]
    decide

/-- C10: `_schedule_after_flow_actions` keys the job of an action whose id is
not a positive integer as `flow:<target>` rather than `action:<id>`, and
enqueues it at `now + max(delay, 0)`; at fire time a `flow:<t>` job renders
`t` if and only if `t`'s cached mode is `auto`, whereas an `action:<id>` job
renders its re-resolved active target irrespective of the target's mode. -/
theorem c10_nonpositive_action_id_key :
    (∀ (env : Env) (uid : Int) (after : String) (a : Action),
      a ∈ env.actionsAll → a.after_flow = after → a.is_active = 1 →
      a.action_type = "start_flow" → pyStrip a.target_flow ≠ "" → ¬ a.id > 0 →
      after_action_key a = "flow:" ++ pyStrip a.target_flow ∧
      Ev.upsertJob uid (after_action_key a) (env.now + max a.delay_seconds 0) ∈
        afterFlowEvents env uid after) ∧
    (∀ (env : Env) (uid : Int) (f : String), pyStrip f = f → f ≠ "" →
      ((Ev.renderCall uid f 0 ∈ dispatch_job env uid ("flow:" ++ f)) ↔
        _mode env.modes f = "auto")) ∧
    (∀ (env : Env) (uid : Int) (aidS : String) (aid : Int) (a : Action),
      pyInt (pyStrip aidS) = some aid → aid > 0 →
      (get_flow_actions env none).find? (fun x => x.id == aid && x.is_active == 1) = some a →
      pyStrip a.target_flow ≠ "" →
      Ev.renderCall uid (pyStrip a.target_flow) 0 ∈ dispatch_job env uid ("action:" ++ aidS)) := by
  refine ⟨?_, ?_, ?_⟩
  · intro env uid after a hmem hafter hact htype htgt hid
    have hkey : after_action_key a = "flow:" ++ pyStrip a.target_flow := by
      unfold after_action_key _job_flow
      rw [if_neg hid, pyStrip_idem]
    refine ⟨hkey, ?_⟩
    unfold afterFlowEvents
    apply List.mem_flatMap.2
    refine ⟨a, ?_, ?_⟩
    · unfold get_flow_actions
      exact List.mem_filter.2 ⟨hmem, by simp [hafter]⟩
    · rw [if_neg (by simp [hact]), if_neg (by simp [htype]), if_neg (by simp [htgt])]
      simp
  · intro env uid f hk hne
    rw [dispatch_flow_key env uid f hk]
    constructor
    · intro hmem
      by_cases hm : _mode env.modes f = "auto"
      · exact hm
      · rw [if_neg (by simp [hm])] at hmem
        simp at hmem
    · intro hm
      rw [if_pos ⟨hne, hm⟩]
      exact List.mem_cons_self _ _
  · intro env uid aidS aid a haid hpos hfind htgt
    rw [dispatch_action_key env uid aidS aid haid, if_pos hpos, hfind]
    show Ev.renderCall uid (pyStrip a.target_flow) 0 ∈
      (if pyStrip a.target_flow ≠ "" then
        Ev.renderCall uid (pyStrip a.target_flow) 0 ::
          render_flow env uid (pyStrip a.target_flow) 0
      else [])
    rw [if_pos htgt]
    exact List.mem_cons_self _ _

/-- C10 witness: in `c10Env`, the id-`0` action after `day1` is keyed
`flow:day2` and enqueued at `now + 5`; dispatching `flow:day2` while `day2`
is `manual` renders nothing, while dispatching `action:4` renders `day3`
although `day3` is `manual` too. -/
theorem c10_nonpositive_action_id_key_witness :
    after_action_key ⟨0, "day1", "day2", 5, 1, "start_flow"⟩ = "flow:day2" ∧
    Ev.upsertJob 7 (after_action_key ⟨0, "day1", "day2", 5, 1, "start_flow"⟩) 55 ∈
      afterFlowEvents c10Env 7 "day1" ∧
    (Ev.renderCall 7 "day2" 0 ∉ dispatch_job c10Env 7 "flow:day2") ∧
    Ev.renderCall 7 "day3" 0 ∈ dispatch_job c10Env 7 "action:4" := by
  have h1 := c10_nonpositive_action_id_key.1 c10Env 7 "day1"
    ⟨0, "day1", "day2", 5, 1, "start_flow"⟩ (by decide) rfl rfl rfl (by decide) (by decide)
  have h2 := c10_nonpositive_action_id_key.2.1 c10Env 7 "day2" (by decide) (by decide)
  have h3 := c10_nonpositive_action_id_key.2.2 c10Env 7 "4" 4
    ⟨4, "day1", "day3", 0, 1, "start_flow"⟩ (by decide) (by decide) (by decide) (by decide)
  refine ⟨h1.1, h1.2, ?_, h3⟩
  intro hmem
  exact absurd (h2.1 hmem) (by decide)

theorem renderLoop_append_completed (env : Env) (chat : Int) (flow : String) (sp : Int)
    (pre rest : List Block) (m : Bool)
    (h : (renderLoop env chat flow sp pre m).completed = true) :
    renderLoop env chat flow sp (pre ++ rest) m =
      ⟨(renderLoop env chat flow sp pre m).evs ++
        (renderLoop env chat flow sp rest (renderLoop env chat flow sp pre m).menuOnce).evs,
       (renderLoop env chat flow sp rest (renderLoop env chat flow sp pre m).menuOnce).completed,
       (renderLoop env chat flow sp rest (renderLoop env chat flow sp pre m).menuOnce).menuOnce⟩ := by
  induction pre generalizing m with
  | nil => simp [renderLoop]
  | cons b bs ih =>
    by_cases hskip : skipBlock sp b
    · simp only [List.cons_append, renderLoop, if_pos hskip] at h ⊢
      exact ih m h
    · simp only [List.cons_append, renderLoop, if_neg hskip] at h ⊢
      by_cases hstop : (procBlock env chat flow m b).stop = true
      · simp only [if_pos hstop] at h
        simp at h
      · simp only [if_neg hstop] at h ⊢
        simp only [List.append_eq] at h ⊢
        rw [ih (procBlock env chat flow m b).menuOnce h]
        simp [List.append_assoc]

/-- C9: when the active block the render reaches has type `video` but a blank
video reference, `render_flow` returns immediately: it sends nothing for the
block, schedules no job (in particular no `resume:` continuation), delivers
none of the remaining blocks, and skips the end-of-flow unlock and post-flow
actions — the output is exactly the events of the blocks before it. -/
theorem c9_blank_video_stops_render :
    ∀ (env : Env) (chat : Int) (flowRaw : String) (sp : Int) (pre post : List Block)
      (b : Block),
      pyStrip flowRaw ≠ "" →
      env.blocksOf (pyStrip flowRaw) = pre ++ b :: post →
      (renderLoop env chat (pyStrip flowRaw) sp pre false).completed = true →
      ¬ skipBlock sp b →
      pyStrip b.type = "video" → pyStrip b.video = "" →
      render_flow env chat flowRaw sp =
        (renderLoop env chat (pyStrip flowRaw) sp pre false).evs := by
  intro env chat flowRaw sp pre post b hfl hblocks hcomp hskip htype hvid
  have hb : ∀ m1 : Bool,
      renderLoop env chat (pyStrip flowRaw) sp (b :: post) m1 = ⟨[], false, m1⟩ := by
    intro m1
    have hp : procBlock env chat (pyStrip flowRaw) m1 b = ⟨[], true, m1⟩ := by
      simp only [procBlock]
      rw [if_pos htype]
      simp only [videoGateEvs]
      rw [if_pos (Or.inr hvid)]
    simp [renderLoop, hskip, hp]
  unfold render_flow
  rw [if_neg hfl, hblocks,
    renderLoop_append_completed env chat (pyStrip flowRaw) sp pre (b :: post) false hcomp,
    hb]
  simp

/-- C9 witness: in `c9Env`, flow `vd` opens with an active video block whose
video reference is blank; rendering the flow produces no events at all — the
following text block is never delivered and no job is scheduled. -/
theorem c9_blank_video_stops_render_witness :
    render_flow c9Env 9 "vd" 0 = [] := by
  have h := c9_blank_video_stops_render c9Env 9 "vd" 0 []
    [{ demoTextBlock "vd" "later" 0 with id := 4, position := 2 }] c9VideoBlock
    (by decide) (by decide) rfl (by decide) (by decide) (by decide)
  exact h

theorem interleave_nil_left : ∀ {ys zs : List TEv}, Interleave [] ys zs → zs = ys := by
  intro ys zs h
  induction zs generalizing ys with
  | nil => cases h; rfl
  | cons z zt ih =>
    cases h with
    | right h2 => rw [ih h2]

theorem interleave_append (xs ys : List TEv) : Interleave xs ys (xs ++ ys) := by
  induction xs with
  | nil =>
    induction ys with
    | nil => exact .nil
    | cons y yt ih => simpa using Interleave.right (by simpa using ih)
  | cons x xt ih => exact .left ih

theorem interleave_nil_right : ∀ {xs zs : List TEv}, Interleave xs [] zs → zs = xs := by
  intro xs zs h
  induction zs generalizing xs with
  | nil => cases h; rfl
  | cons z zt ih =>
    cases h with
    | left h2 => rw [ih h2]

theorem run_holding_right (u : Int) (tA tB : Bool) (as : List TEv) :
    ∀ (ms : List Ev) (h : List (Int × Bool)) (tr : List TEv),
      holderOf h u = some tB →
      Interleave ((tA, LEv.acq u) :: as)
        (ms.map (fun e => (tB, LEv.snd u e)) ++ [(tB, LEv.rel u)]) tr →
      lockOK h tr = true →
      tr = (ms.map (fun e => (tB, LEv.snd u e)) ++ [(tB, LEv.rel u)]) ++
        (tA, LEv.acq u) :: as := by
  intro ms
  induction ms with
  | nil =>
    intro h tr hh hint hlock
    simp only [List.map_nil, List.nil_append] at hint ⊢
    cases hint with
    | right h2 =>
      rw [interleave_nil_right h2]
      rfl
    | left h2 =>
      simp [lockOK, lockStep, hh] at hlock
  | cons mh mt ih =>
    intro h tr hh hint hlock
    simp only [List.map_cons, List.cons_append] at hint ⊢
    cases hint with
    | right h2 =>
      have hlock2 := by simpa [lockOK, lockStep] using hlock
      rw [ih h _ hh h2 hlock2]
    | left h2 =>
      simp [lockOK, lockStep, hh] at hlock

theorem run_holding (u : Int) (tA tB : Bool) (bs : List TEv) :
    ∀ (ms : List Ev) (h : List (Int × Bool)) (tr : List TEv),
      holderOf h u = some tA →
      Interleave (ms.map (fun e => (tA, LEv.snd u e)) ++ [(tA, LEv.rel u)])
        ((tB, LEv.acq u) :: bs) tr →
      lockOK h tr = true →
      tr = (ms.map (fun e => (tA, LEv.snd u e)) ++ [(tA, LEv.rel u)]) ++
        (tB, LEv.acq u) :: bs := by
  intro ms
  induction ms with
  | nil =>
    intro h tr hh hint hlock
    simp only [List.map_nil, List.nil_append] at hint ⊢
    cases hint with
    | left h2 =>
      rw [interleave_nil_left h2]
      rfl
    | right h2 =>
      simp [lockOK, lockStep, hh] at hlock
  | cons mh mt ih =>
    intro h tr hh hint hlock
    simp only [List.map_cons, List.cons_append] at hint ⊢
    cases hint with
    | left h2 =>
      have hlock2 := by simpa [lockOK, lockStep] using hlock
      rw [ih h _ hh h2 hlock2]
    | right h2 =>
      simp [lockOK, lockStep, hh] at hlock

theorem tagT_lockTrace (t : Bool) (u : Int) (ms : List Ev) :
    tagT t (lockTrace u ms) =
      (t, LEv.acq u) :: (ms.map (fun e => (t, LEv.snd u e)) ++ [(t, LEv.rel u)]) := by
  simp [tagT, lockTrace, Function.comp]

theorem render_serialized_core (u : Int) (msA msB : List Ev) (tr : List TEv)
    (hint : Interleave (tagT false (lockTrace u msA)) (tagT true (lockTrace u msB)) tr)
    (hlock : lockOK [] tr = true) :
    sinkEvs tr =
      sinkEvs (tagT false (lockTrace u msA)) ++ sinkEvs (tagT true (lockTrace u msB)) ∨
    sinkEvs tr =
      sinkEvs (tagT true (lockTrace u msB)) ++ sinkEvs (tagT false (lockTrace u msA)) := by
  rw [tagT_lockTrace, tagT_lockTrace] at hint
  cases hint with
  | @left x xs ys zs h2 =>
    have hlock2 : lockOK [(u, false)] zs = true := by
      simpa [lockOK, lockStep, holderOf] using hlock
    have heq := run_holding u false true _ msA [(u, false)] zs (by simp [holderOf]) h2 hlock2
    left
    rw [heq, tagT_lockTrace, tagT_lockTrace]
    rw [show ((false, LEv.acq u) ::
        ((msA.map (fun e => (false, LEv.snd u e)) ++ [(false, LEv.rel u)]) ++
          (true, LEv.acq u) ::
            (msB.map (fun e => (true, LEv.snd u e)) ++ [(true, LEv.rel u)]))) =
      ((false, LEv.acq u) :: (msA.map (fun e => (false, LEv.snd u e)) ++ [(false, LEv.rel u)])) ++
        ((true, LEv.acq u) :: (msB.map (fun e => (true, LEv.snd u e)) ++ [(true, LEv.rel u)]))
      from by simp]
    unfold sinkEvs
    rw [List.filter_append]
  | @right y xs ys zs h2 =>
    have hlock2 : lockOK [(u, true)] zs = true := by
      simpa [lockOK, lockStep, holderOf] using hlock
    have heq := run_holding_right u false true _ msB [(u, true)] zs (by simp [holderOf]) h2 hlock2
    right
    rw [heq, tagT_lockTrace, tagT_lockTrace]
    rw [show ((true, LEv.acq u) ::
        ((msB.map (fun e => (true, LEv.snd u e)) ++ [(true, LEv.rel u)]) ++
          (false, LEv.acq u) ::
            (msA.map (fun e => (false, LEv.snd u e)) ++ [(false, LEv.rel u)]))) =
      ((true, LEv.acq u) :: (msB.map (fun e => (true, LEv.snd u e)) ++ [(true, LEv.rel u)])) ++
        ((false, LEv.acq u) :: (msA.map (fun e => (false, LEv.snd u e)) ++ [(false, LEv.rel u)]))
      from by simp]
    unfold sinkEvs
    rw [List.filter_append]

theorem render_flow_twoMsg (w : Int) :
    render_flow twoMsgEnv w "fa" 0 = [Ev.sendMsg w "a" none, Ev.sendMsg w "b" none] := rfl

/-- C8: per-user serialization. (a) For any two renders for the same user
`u` — each a `render_flow` critical section under `_lock(u)` — every
scheduler interleaving admissible for the per-user mutexes keeps their
Delivery Sink calls un-interleaved: the sink events of the combined trace
are exactly one run's sink events followed in order by the other's.
(b) For distinct users `u ≠ v` the locks impose no such order: an admissible
interleaving exists in which the two renders' sink calls alternate. -/
theorem c8_per_user_serialization :
    (∀ (env : Env) (u : Int) (fA fB : String) (spA spB : Int) (tr : List TEv),
      Interleave (tagT false (renderLockTrace env u fA spA))
        (tagT true (renderLockTrace env u fB spB)) tr →
      lockOK [] tr = true →
      sinkEvs tr =
        sinkEvs (tagT false (renderLockTrace env u fA spA)) ++
          sinkEvs (tagT true (renderLockTrace env u fB spB)) ∨
      sinkEvs tr =
        sinkEvs (tagT true (renderLockTrace env u fB spB)) ++
          sinkEvs (tagT false (renderLockTrace env u fA spA))) ∧
    (∀ u v : Int, u ≠ v →
      Interleave (tagT false (renderLockTrace twoMsgEnv u "fa" 0))
        (tagT true (renderLockTrace twoMsgEnv v "fa" 0)) (demoInterleaved u v) ∧
      lockOK [] (demoInterleaved u v) = true ∧
      sinkEvs (demoInterleaved u v) ≠
        sinkEvs (tagT false (renderLockTrace twoMsgEnv u "fa" 0)) ++
          sinkEvs (tagT true (renderLockTrace twoMsgEnv v "fa" 0)) ∧
      sinkEvs (demoInterleaved u v) ≠
        sinkEvs (tagT true (renderLockTrace twoMsgEnv v "fa" 0)) ++
          sinkEvs (tagT false (renderLockTrace twoMsgEnv u "fa" 0))) := by
  constructor
  · intro env u fA fB spA spB tr hint hlock
    exact render_serialized_core u (render_flow env u fA spA) (render_flow env u fB spB)
      tr hint hlock
  · intro u v hne
    have hvu : ¬ v = u := fun h => hne h.symm
    refine ⟨?_, ?_, ?_, ?_⟩
    · exact .left (.right (.left (.right (.left (.right (.left (.right .nil)))))))
    · simp [demoInterleaved, lockOK, lockStep, holderOf, dropHolder, hne, hvu]
    · intro h
      have hs : sinkEvs (demoInterleaved u v) =
          [(false, LEv.snd u (Ev.sendMsg u "a" none)), (true, LEv.snd v (Ev.sendMsg v "a" none)),
           (false, LEv.snd u (Ev.sendMsg u "b" none)),
           (true, LEv.snd v (Ev.sendMsg v "b" none))] := rfl
      have ha : sinkEvs (tagT false (renderLockTrace twoMsgEnv u "fa" 0)) =
          [(false, LEv.snd u (Ev.sendMsg u "a" none)),
           (false, LEv.snd u (Ev.sendMsg u "b" none))] := rfl
      have hb : sinkEvs (tagT true (renderLockTrace twoMsgEnv v "fa" 0)) =
          [(true, LEv.snd v (Ev.sendMsg v "a" none)),
           (true, LEv.snd v (Ev.sendMsg v "b" none))] := rfl
      rw [hs, ha, hb] at h
      simp at h
    · intro h
      have hs : sinkEvs (demoInterleaved u v) =
          [(false, LEv.snd u (Ev.sendMsg u "a" none)), (true, LEv.snd v (Ev.sendMsg v "a" none)),
           (false, LEv.snd u (Ev.sendMsg u "b" none)),
           (true, LEv.snd v (Ev.sendMsg v "b" none))] := rfl
      have ha : sinkEvs (tagT false (renderLockTrace twoMsgEnv u "fa" 0)) =
          [(false, LEv.snd u (Ev.sendMsg u "a" none)),
           (false, LEv.snd u (Ev.sendMsg u "b" none))] := rfl
      have hb : sinkEvs (tagT true (renderLockTrace twoMsgEnv v "fa" 0)) =
          [(true, LEv.snd v (Ev.sendMsg v "a" none)),
           (true, LEv.snd v (Ev.sendMsg v "b" none))] := rfl
      rw [hs, ha, hb] at h
      simp at h


/-- C8 witness: part (a) applied to the concrete sequential schedule of two
renders for user `1` (an interleaving that is lock-admissible), and part (b)
applied at the distinct users `1` and `2`. -/
theorem c8_per_user_serialization_witness :
    (sinkEvs (tagT false (renderLockTrace twoMsgEnv 1 "fa" 0) ++
        tagT true (renderLockTrace twoMsgEnv 1 "fb" 0)) =
      sinkEvs (tagT false (renderLockTrace twoMsgEnv 1 "fa" 0)) ++
        sinkEvs (tagT true (renderLockTrace twoMsgEnv 1 "fb" 0)) ∨
      sinkEvs (tagT false (renderLockTrace twoMsgEnv 1 "fa" 0) ++
          tagT true (renderLockTrace twoMsgEnv 1 "fb" 0)) =
        sinkEvs (tagT true (renderLockTrace twoMsgEnv 1 "fb" 0)) ++
          sinkEvs (tagT false (renderLockTrace twoMsgEnv 1 "fa" 0))) ∧
    lockOK [] (demoInterleaved 1 2) = true := by
  constructor
  · exact c8_per_user_serialization.1 twoMsgEnv 1 "fa" "fb" 0 0 _
      (interleave_append _ _) (by decide)
  · exact (c8_per_user_serialization.2 1 2 (by decide)).2.1

end HappyBot
